import Mathlib

/-!
Shallow embedding of the container-lifecycle module of dockertest-rs
(src/container.rs): the three container states (pending, running,
cleanup), the conversions between them, `PendingContainer::new` and
`PendingContainer::start`, together with models of the external
collaborators the module calls into (the bollard daemon error value and
the serde_json payload parser).
-/

set_option linter.unusedVariables false

/-- Model of `std::net::Ipv4Addr`: four octets. -/
structure Ipv4Addr where
  o1 : Nat
  o2 : Nat
  o3 : Nat
  o4 : Nat
deriving DecidableEq

/-- Model of `std::net::Ipv4Addr::UNSPECIFIED`, the address 0.0.0.0. -/
def Ipv4Addr.UNSPECIFIED : Ipv4Addr := ⟨0, 0, 0, 0⟩

/-- Model of the bollard daemon client handle `Docker`: a cheaply
cloneable opaque connection token. The module only stores and forwards
it; the transport behind it is an external collaborator. -/
structure Docker where
  conn : Nat
deriving DecidableEq

/-- Modelled from the spec: `StartPolicy` lives at the crate root, not
under src/; the spec describes it as "an enumerated value (e.g., relaxed
vs strict)" that the container merely carries through. -/
inductive StartPolicy where
  | Relaxed
  | Strict
deriving DecidableEq

/-- Modelled from the spec: the error enum `DockerTestError` lives at
the crate root, not under src/. The module constructs exactly its
`Startup` and `Daemon` variants, matching the error taxonomy of the spec
(each carries a human-readable message). -/
inductive DockerTestError where
  | Startup (msg : String)
  | Daemon (msg : String)
deriving DecidableEq

/-- Model of `bollard::errors::ErrorKind` as consumed by `start`: the
`DockerResponseNotFoundError` variant carrying the daemon payload, and a
single catch-all for every other kind, since the source matches all of
them with the wildcard arm. -/
inductive ErrorKind where
  | DockerResponseNotFoundError (message : String)
  | Other
deriving DecidableEq

/-- Model of a bollard error value: its kind (`e.kind()`) together with
its `Display` rendering (what `format!` interpolates for `e`). -/
structure BollardError where
  kind : ErrorKind
  display : String
deriving DecidableEq

/-- Model of `serde_json::Value`, with numbers restricted to integers. -/
inductive Json where
  | null
  | bool (b : Bool)
  | num (n : Int)
  | str (s : String)
  | arr (elems : List Json)
  | obj (fields : List (String × Json))

/-- Model of the serde_json `Index<&str>` impl on `Value` (the expression
`json["message"]`): field lookup on objects, `Null` on a missing key or
on a non-object value. -/
def Json.index (j : Json) (k : String) : Json :=
  match j with
  | .obj fields =>
    match fields.lookup k with
    | some v => v
    | none => .null
  | _ => .null

/-- Model of `serde_json::Value::as_str`. -/
def Json.as_str : Json → Option String
  | .str s => some s
  | _ => none

/-- Skip JSON whitespace. -/
def skipWs : List Char → List Char
  | [] => []
  | c :: cs =>
    if c == ' ' || c == '\t' || c == '\n' || c == '\r' then skipWs cs else c :: cs

/-- Parse the body of a JSON string literal after the opening quote,
handling the simple escapes; `\u` escapes are outside the model. -/
def parseStringBody : List Char → String → Except String (String × List Char)
  | [], _ => .error "unexpected end of input in string"
  | c :: cs, acc =>
    if c == '"' then .ok (acc, cs)
    else if c == '\\' then
      match cs with
      | [] => .error "unexpected end of input in escape"
      | e :: cs2 =>
        if e == '"' then parseStringBody cs2 (acc.push '"')
        else if e == '\\' then parseStringBody cs2 (acc.push '\\')
        else if e == '/' then parseStringBody cs2 (acc.push '/')
        else if e == 'n' then parseStringBody cs2 (acc.push '\n')
        else if e == 't' then parseStringBody cs2 (acc.push '\t')
        else if e == 'r' then parseStringBody cs2 (acc.push '\r')
        else .error "unsupported escape"
    else parseStringBody cs (acc.push c)

/-- Parse a run of decimal digits, accumulating their value. -/
def parseDigits : List Char → Nat → Nat × List Char
  | [], acc => (acc, [])
  | c :: cs, acc =>
    if c.isDigit then parseDigits cs (acc * 10 + (c.toNat - 48)) else (acc, c :: cs)

/-- Insert a field into an object under construction, overwriting an
existing key, matching the serde_json map semantics on duplicate keys. -/
def insertField (fields : List (String × Json)) (k : String) (v : Json) :
    List (String × Json) :=
  match fields with
  | [] => [(k, v)]
  | (k0, v0) :: rest =>
    if k0 = k then (k, v) :: rest else (k0, v0) :: insertField rest k v

mutual

/-- Fuel-indexed recursive-descent parser for one JSON value, modelling
the grammar accepted by `serde_json::from_str` (integer numbers only). -/
def parseValue : Nat → List Char → Except String (Json × List Char)
  | 0, _ => .error "recursion depth exceeded"
  | fuel + 1, cs =>
    match skipWs cs with
    | [] => .error "unexpected end of input"
    | c :: cs1 =>
      if c == 'n' then
        match cs1 with
        | 'u' :: 'l' :: 'l' :: rest => .ok (.null, rest)
        | _ => .error "invalid literal"
      else if c == 't' then
        match cs1 with
        | 'r' :: 'u' :: 'e' :: rest => .ok (.bool true, rest)
        | _ => .error "invalid literal"
      else if c == 'f' then
        match cs1 with
        | 'a' :: 'l' :: 's' :: 'e' :: rest => .ok (.bool false, rest)
        | _ => .error "invalid literal"
      else if c == '"' then
        match parseStringBody cs1 "" with
        | .ok (s, rest) => .ok (.str s, rest)
        | .error e => .error e
      else if c == '-' then
        match cs1 with
        | d :: cs2 =>
          if d.isDigit then
            let p := parseDigits cs2 (d.toNat - 48)
            .ok (.num (-(p.1 : Int)), p.2)
          else .error "invalid number"
        | [] => .error "invalid number"
      else if c.isDigit then
        let p := parseDigits cs1 (c.toNat - 48)
        .ok (.num (p.1 : Int), p.2)
      else if c == '[' then
        match skipWs cs1 with
        | ']' :: rest => .ok (.arr [], rest)
        | cs2 => parseArrayItems fuel cs2 []
      else if c == '\x7b' then
        match skipWs cs1 with
        | '\x7d' :: rest => .ok (.obj [], rest)
        | cs2 => parseObjectItems fuel cs2 []
      else .error "unexpected character"

/-- Parse the items of a non-empty JSON array after the opening bracket. -/
def parseArrayItems : Nat → List Char → List Json → Except String (Json × List Char)
  | 0, _, _ => .error "recursion depth exceeded"
  | fuel + 1, cs, acc =>
    match parseValue fuel cs with
    | .error e => .error e
    | .ok (v, rest) =>
      match skipWs rest with
      | ',' :: rest2 => parseArrayItems fuel rest2 (acc ++ [v])
      | ']' :: rest2 => .ok (.arr (acc ++ [v]), rest2)
      | _ => .error "expected comma or close bracket"

/-- Parse the members of a non-empty JSON object after the opening brace. -/
def parseObjectItems : Nat → List Char → List (String × Json) →
    Except String (Json × List Char)
  | 0, _, _ => .error "recursion depth exceeded"
  | fuel + 1, cs, acc =>
    match skipWs cs with
    | '"' :: cs1 =>
      match parseStringBody cs1 "" with
      | .error e => .error e
      | .ok (k, rest) =>
        match skipWs rest with
        | ':' :: rest2 =>
          match parseValue fuel rest2 with
          | .error e => .error e
          | .ok (v, rest3) =>
            match skipWs rest3 with
            | ',' :: rest4 => parseObjectItems fuel rest4 (insertField acc k v)
            | '\x7d' :: rest4 => .ok (.obj (insertField acc k v), rest4)
            | _ => .error "expected comma or close brace"
        | _ => .error "expected colon"
    | _ => .error "expected object key"

end

/-- Model of `serde_json::from_str::<Value>`: parse one JSON value and
require only whitespace to remain, as serde rejects trailing characters.
The error string models the `Display` rendering of the serde error. -/
def Json.parse (s : String) : Except String Json :=
  match parseValue (s.length + 1) s.data with
  | .error e => .error e
  | .ok (v, rest) =>
    match skipWs rest with
    | [] => .ok v
    | _ => .error "trailing characters"

/-- `PendingContainer` (src/container.rs): a container created on the
daemon but not yet confirmed running. The readiness-strategy trait
object `Option<Box<dyn WaitFor>>` is modelled by an `Option W` for an
abstract strategy type `W`; the behaviour of the strategy is supplied to
`start` as a separate interpretation function. -/
structure PendingContainer (W : Type) where
  client : Docker
  name : String
  id : String
  handle : String
  start_policy : StartPolicy
  wait : Option W

/-- `RunningContainer` (src/container.rs): a container confirmed ready
and handed to the test body. -/
structure RunningContainer where
  client : Docker
  handle : String
  id : String
  name : String
  ip : Ipv4Addr
deriving DecidableEq

/-- `CleanupContainer` (src/container.rs): the identifier-only record
handed to teardown. -/
structure CleanupContainer where
  id : String
deriving DecidableEq

/-- Model of `impl From<PendingContainer> for RunningContainer`: copies
client, handle, id and name, and sets the address to
`Ipv4Addr::UNSPECIFIED`. It takes no daemon handle beyond the stored
field and performs no daemon query. -/
def RunningContainer.fromPendingContainer {W : Type}
    (container : PendingContainer W) : RunningContainer :=
  { client := container.client
    handle := container.handle
    id := container.id
    name := container.name
    ip := Ipv4Addr.UNSPECIFIED }

/-- Model of `impl From<PendingContainer> for CleanupContainer` (by
value): keeps only the identifier. -/
def CleanupContainer.fromPendingContainer {W : Type}
    (container : PendingContainer W) : CleanupContainer :=
  { id := container.id }

/-- Model of `impl From<&PendingContainer> for CleanupContainer` (by
reference): clones the identifier, a deep copy independent of the
original container. -/
def CleanupContainer.fromPendingContainerRef {W : Type}
    (container : PendingContainer W) : CleanupContainer :=
  { id := container.id }

/-- Model of `impl From<RunningContainer> for CleanupContainer`. -/
def CleanupContainer.fromRunningContainer (container : RunningContainer) :
    CleanupContainer :=
  { id := container.id }

/-- Model of `PendingContainer::new`. The `ToString` bounds are
instantiated at `String`, on which `to_string` is the identity, so the
fields are stored exactly as supplied. -/
def PendingContainer.new {W : Type} (name id handle : String)
    (start_policy : StartPolicy) (wait : W) (client : Docker) :
    PendingContainer W :=
  { client := client
    name := name
    id := id
    handle := handle
    wait := some wait
    start_policy := start_policy }

/-- The error-classification closure passed to `map_err` inside
`PendingContainer::start`. The result `none` models a panic: the
`.unwrap()` on `json["message"].as_str()` when the parsed "not found"
payload has no string-valued `"message"` field. -/
def classifyStartError (e : BollardError) : Option DockerTestError :=
  match e.kind with
  | .DockerResponseNotFoundError message =>
    match Json.parse message with
    | .ok json =>
      match (json.index "message").as_str with
      | some m =>
        some (.Startup ("failed to start container due to `" ++ m ++ "`"))
      | none => none
    | .error err =>
      some (.Daemon ("daemon json response decode failure: " ++ err))
  | .Other => some (.Daemon ("failed to start container: " ++ e.display))

/-- Model of `PendingContainer::start`. The daemon call
`self.client.start_container(&self.name, None)` is an external effect
whose outcome is passed in as `start_container`; the readiness
asynchronous effects of the strategy are modelled by explicit state passing
through `wait_for_ready`. The outer `Option` in the result models
panic-freedom: `none` is a panic, arising either from the
`.unwrap()` in the classification closure or from `self.wait.take().unwrap()`.
On a successful daemon start the strategy field is taken out (the
container handed to the strategy has `wait = none`) and the result of the strategy is returned as-is. -/
def PendingContainer.start {W σ : Type}
    (wait_for_ready : W → PendingContainer W → σ →
      Except DockerTestError RunningContainer × σ)
    (start_container : Except BollardError Unit)
    (self : PendingContainer W) (s : σ) :
    Option (Except DockerTestError RunningContainer) × σ :=
  match start_container with
  | .error e =>
    match classifyStartError e with
    | some err => (some (.error err), s)
    | none => (none, s)
  | .ok _ =>
    match self.wait with
    | none => (none, s)
    | some waitfor =>
      let res := wait_for_ready waitfor { self with wait := none } s
      (some res.1, res.2)

/-- A concrete client value used in witness instantiations. -/
def sampleClient : Docker := ⟨0⟩

/-- A concrete pending container over the trivial strategy type. -/
def samplePending : PendingContainer Unit :=
  PendingContainer.new "cont" "id-1" "handle-1" .Relaxed () sampleClient

/-- A readiness strategy over a counter state recording each invocation;
it converts the pending container exactly as the `NoWait` strategy does. -/
def countingStrategy (w : Unit) (c : PendingContainer Unit) (s : Nat) :
    Except DockerTestError RunningContainer × Nat :=
  (.ok (RunningContainer.fromPendingContainer c), s + 1)

/-- C1: when the daemon start command succeeds, `start` invokes the
readiness strategy exactly once — its result is precisely one
application of `wait_for_ready` to the committed container, returned
with no additional wrapping and carrying exactly that one application
worth of state effect — and when the daemon start command fails the
strategy is never invoked: the outcome is the same for every strategy
and the state is left untouched. -/
theorem start_invokes_strategy_once {W σ : Type}
    (self : PendingContainer W) (w : W) (h : self.wait = some w) :
    (∀ (wait_for_ready : W → PendingContainer W → σ →
        Except DockerTestError RunningContainer × σ) (s : σ),
      PendingContainer.start wait_for_ready (.ok ()) self s =
        (some (wait_for_ready w { self with wait := none } s).1,
         (wait_for_ready w { self with wait := none } s).2)) ∧
    (∀ (e : BollardError)
       (wf wf2 : W → PendingContainer W → σ →
         Except DockerTestError RunningContainer × σ) (s : σ),
      PendingContainer.start wf (.error e) self s =
        PendingContainer.start wf2 (.error e) self s ∧
      (PendingContainer.start wf (.error e) self s).2 = s) := by
  constructor
  · intro wfr s
    simp [PendingContainer.start, h]
  · intro e wf wf2 s
    refine ⟨rfl, ?_⟩
    cases hc : classifyStartError e <;> simp [PendingContainer.start, hc]

/-- Witness for C1: the invocation-counting strategy is applied exactly
once on the success path of a concrete container. -/
theorem start_invokes_strategy_once_witness :
    PendingContainer.start countingStrategy (.ok ()) samplePending 0 =
      (some (countingStrategy () { samplePending with wait := none } 0).1,
       (countingStrategy () { samplePending with wait := none } 0).2) :=
  (start_invokes_strategy_once samplePending () rfl).1 countingStrategy 0

/-- C2: when the daemon start fails with "not found" and the payload
parses as JSON whose `"message"` field is the string `m`, `start`
returns a `Startup` error carrying `m`; its text contains `m`. -/
theorem start_not_found_with_message {W σ : Type}
    (wait_for_ready : W → PendingContainer W → σ →
      Except DockerTestError RunningContainer × σ)
    (payload d m : String) (j : Json)
    (hparse : Json.parse payload = .ok j)
    (hmsg : (j.index "message").as_str = some m)
    (self : PendingContainer W) (s : σ) :
    PendingContainer.start wait_for_ready
        (.error ⟨.DockerResponseNotFoundError payload, d⟩) self s =
      (some (.error (.Startup
        ("failed to start container due to `" ++ m ++ "`"))), s) ∧
    ∃ pre post,
      "failed to start container due to `" ++ m ++ "`" = pre ++ m ++ post := by
  refine ⟨?_, "failed to start container due to `", "`", rfl⟩
  simp [PendingContainer.start, classifyStartError, hparse, hmsg]

/-- Witness for C2: the payload carrying message "No such container: X"
produces a `Startup` error whose text contains that message. -/
theorem start_not_found_with_message_witness :
    PendingContainer.start countingStrategy
        (.error ⟨.DockerResponseNotFoundError
          "\x7b\"message\": \"No such container: X\"\x7d", "not found"⟩)
        samplePending 0 =
      (some (.error (.Startup
        ("failed to start container due to `" ++ "No such container: X" ++ "`"))), 0) ∧
    ∃ pre post,
      "failed to start container due to `" ++ "No such container: X" ++ "`" =
        pre ++ "No such container: X" ++ post :=
  start_not_found_with_message countingStrategy
    "\x7b\"message\": \"No such container: X\"\x7d" "not found"
    "No such container: X" (.obj [("message", .str "No such container: X")])
    rfl rfl samplePending 0

/-- C3: in the "not found" branch `start` panics (no typed error at all,
modelled by `none`) exactly when the payload parses as valid JSON whose
`"message"` lookup is not a string; in every other case — parse failure
or a string-valued `"message"` field — a typed error is returned. -/
theorem start_not_found_extraction_cases {W σ : Type}
    (wait_for_ready : W → PendingContainer W → σ →
      Except DockerTestError RunningContainer × σ)
    (payload d : String) (self : PendingContainer W) (s : σ) :
    (PendingContainer.start wait_for_ready
        (.error ⟨.DockerResponseNotFoundError payload, d⟩) self s).1 = none ↔
      ∃ j, Json.parse payload = .ok j ∧ (j.index "message").as_str = none := by
  cases hp : Json.parse payload with
  | error e => simp [PendingContainer.start, classifyStartError, hp]
  | ok j =>
    cases hm : (j.index "message").as_str with
    | none => simp [PendingContainer.start, classifyStartError, hp, hm]
    | some m => simp [PendingContainer.start, classifyStartError, hp, hm]

/-- Witness for C3: the payload `null` is valid JSON with no `"message"`
field, and `start` on it yields the panic marker instead of an error. -/
theorem start_not_found_extraction_cases_witness :
    (PendingContainer.start countingStrategy
        (.error ⟨.DockerResponseNotFoundError "null", "not found"⟩)
        samplePending 0).1 = none :=
  (start_not_found_extraction_cases countingStrategy "null" "not found"
    samplePending 0).mpr ⟨.null, rfl, rfl⟩

/-- C4: when the daemon start fails with "not found" and the payload is
not valid JSON, `start` returns a `Daemon` error describing the decode
failure. -/
theorem start_not_found_unparseable {W σ : Type}
    (wait_for_ready : W → PendingContainer W → σ →
      Except DockerTestError RunningContainer × σ)
    (payload d err : String)
    (hparse : Json.parse payload = .error err)
    (self : PendingContainer W) (s : σ) :
    PendingContainer.start wait_for_ready
        (.error ⟨.DockerResponseNotFoundError payload, d⟩) self s =
      (some (.error (.Daemon
        ("daemon json response decode failure: " ++ err))), s) := by
  simp [PendingContainer.start, classifyStartError, hparse]

/-- Witness for C4: the unparseable payload `not-json` yields a `Daemon`
decode-failure error. -/
theorem start_not_found_unparseable_witness :
    PendingContainer.start countingStrategy
        (.error ⟨.DockerResponseNotFoundError "not-json", "not found"⟩)
        samplePending 0 =
      (some (.error (.Daemon
        ("daemon json response decode failure: " ++ "invalid literal"))), 0) :=
  start_not_found_unparseable countingStrategy "not-json" "not found"
    "invalid literal" rfl samplePending 0

/-- C5: when the daemon start fails with any error other than "not
found", `start` returns a `Daemon` error wrapping the underlying daemon
error message (its `Display` rendering appears in the text). -/
theorem start_other_failure_daemon {W σ : Type}
    (wait_for_ready : W → PendingContainer W → σ →
      Except DockerTestError RunningContainer × σ)
    (e : BollardError)
    (h : ∀ m, e.kind ≠ ErrorKind.DockerResponseNotFoundError m)
    (self : PendingContainer W) (s : σ) :
    PendingContainer.start wait_for_ready (.error e) self s =
      (some (.error (.Daemon ("failed to start container: " ++ e.display))), s) ∧
    ∃ pre, "failed to start container: " ++ e.display = pre ++ e.display := by
  refine ⟨?_, "failed to start container: ", rfl⟩
  cases hk : e.kind with
  | DockerResponseNotFoundError m => exact absurd hk (h m)
  | Other => simp [PendingContainer.start, classifyStartError, hk]

/-- Witness for C5: a non-"not found" daemon failure is wrapped in a
`Daemon` error containing its message. -/
theorem start_other_failure_daemon_witness :
    PendingContainer.start countingStrategy
        (.error ⟨.Other, "socket closed"⟩) samplePending 0 =
      (some (.error (.Daemon ("failed to start container: " ++ "socket closed"))), 0) ∧
    ∃ pre, "failed to start container: " ++ "socket closed" =
      pre ++ "socket closed" :=
  start_other_failure_daemon countingStrategy ⟨.Other, "socket closed"⟩
    (fun m hh => ErrorKind.noConfusion hh) samplePending 0

/-- C6: the Pending → Running conversion is a total function that copies
the connection handle, handle/key, identifier and name, and sets the
address to the unspecified IPv4 address; it takes no daemon input and
performs no query. -/
theorem pending_to_running_fields {W : Type} (c : PendingContainer W) :
    (RunningContainer.fromPendingContainer c).client = c.client ∧
    (RunningContainer.fromPendingContainer c).handle = c.handle ∧
    (RunningContainer.fromPendingContainer c).id = c.id ∧
    (RunningContainer.fromPendingContainer c).name = c.name ∧
    (RunningContainer.fromPendingContainer c).ip = Ipv4Addr.UNSPECIFIED :=
  ⟨rfl, rfl, rfl, rfl, rfl⟩

/-- C7: a container built by `new` holds exactly one readiness strategy;
on a successful daemon start the extraction of that strategy never fails
(the result is `some`, one strategy application), the container handed
to the strategy has its strategy slot emptied, and a container whose
strategy was already consumed cannot complete `start` again (the success
path hits the panic marker instead). -/
theorem strategy_present_and_consumed_once {W σ : Type}
    (name id handle : String) (p : StartPolicy) (w : W) (client : Docker) :
    (PendingContainer.new name id handle p w client).wait = some w ∧
    (∀ (wait_for_ready : W → PendingContainer W → σ →
        Except DockerTestError RunningContainer × σ) (s : σ),
      PendingContainer.start wait_for_ready (.ok ())
          (PendingContainer.new name id handle p w client) s =
        (some (wait_for_ready w
            { PendingContainer.new name id handle p w client with wait := none } s).1,
         (wait_for_ready w
            { PendingContainer.new name id handle p w client with wait := none } s).2)) ∧
    ({ PendingContainer.new name id handle p w client with
        wait := none } : PendingContainer W).wait = none ∧
    (∀ (wait_for_ready : W → PendingContainer W → σ →
        Except DockerTestError RunningContainer × σ) (s : σ),
      (PendingContainer.start wait_for_ready (.ok ())
          { PendingContainer.new name id handle p w client with wait := none } s).1 =
        none) := by
  refine ⟨rfl, ?_, rfl, ?_⟩ <;> intro wfr s <;>
    simp [PendingContainer.start, PendingContainer.new]

/-- C8: all three conversions to a cleanup container are total functions
that keep the identifier of the source, and a cleanup container carries
nothing but its identifier. -/
theorem cleanup_conversions_total_id_only {W : Type}
    (c : PendingContainer W) (r : RunningContainer) :
    (CleanupContainer.fromPendingContainer c).id = c.id ∧
    (CleanupContainer.fromPendingContainerRef c).id = c.id ∧
    (CleanupContainer.fromRunningContainer r).id = r.id ∧
    (∀ x : CleanupContainer, x = ⟨x.id⟩) :=
  ⟨rfl, rfl, rfl, fun x => rfl⟩

/-- C9: converting a pending container by reference to a cleanup
container and then running `start` on the original leaves the captured
identifier unchanged: the cleanup value is an independent copy
determined by the pre-start container, whatever `start` computes. -/
theorem cleanup_ref_unaffected_by_start {W σ : Type} (c : PendingContainer W)
    (wait_for_ready : W → PendingContainer W → σ →
      Except DockerTestError RunningContainer × σ)
    (start_container : Except BollardError Unit) (s : σ) :
    (let cleanup := CleanupContainer.fromPendingContainerRef c
     let result := PendingContainer.start wait_for_ready start_container c s
     cleanup.id = c.id ∧ cleanup = { id := c.id }) :=
  ⟨rfl, rfl⟩

/-- C10: `new` stores the supplied identifier, name and handle/key
exactly, with no normalization. -/
theorem new_preserves_inputs {W : Type} (name id handle : String)
    (p : StartPolicy) (w : W) (client : Docker) :
    (PendingContainer.new name id handle p w client).id = id ∧
    (PendingContainer.new name id handle p w client).name = name ∧
    (PendingContainer.new name id handle p w client).handle = handle :=
  ⟨rfl, rfl, rfl⟩
